import Mathlib

/-!
Verification development for the AI blog generation backend
(`ai_blog.apps.blog.services.generation` / `prompts` / `engagement` and
`ai_blog.apps.blog.models`).  The Python code is shallowly embedded:
text is `List Char`, dictionaries are association lists, the database is
an explicit list of rows, and the regular-expression searches of
`_parse_response` are translated into executable matchers that follow
the Python `re` backtracking semantics of the concrete patterns used by
the source.
-/

/-- Text is modelled as a list of characters (a Python `str`). -/
abbrev Text := List Char

/-- Coerce a Lean string literal to the `Text` model. -/
def str (s : String) : Text := s.data

/-- Python `\s` / `str.strip()` whitespace on the ASCII range
(space, tab, newline, carriage return, vertical tab, form feed). -/
def pyIsSpace (c : Char) : Bool :=
  c == ' ' || c == '\t' || c == '\n' || c == '\r' || c == '\x0b' || c == '\x0c'

/-- ASCII lowercasing, embedding Python `str.lower()` on the inputs used here. -/
def pyToLowerChar (c : Char) : Char :=
  if 'A' ≤ c ∧ c ≤ 'Z' then Char.ofNat (c.toNat + 32) else c

/-- `str.lower()` over a text. -/
def pyToLower (s : Text) : Text := s.map pyToLowerChar

/-- `pat` is a prefix of `s` (character-exact). -/
def isPrefixL : Text → Text → Bool
  | [], _ => true
  | _ :: _, [] => false
  | a :: as, b :: bs => a == b && isPrefixL as bs

/-- Python `pat in s` substring containment. -/
def containsSub (pat : Text) : Text → Bool
  | [] => isPrefixL pat []
  | c :: rest => isPrefixL pat (c :: rest) || containsSub pat rest

/-- `str.strip()`: drop leading and trailing Python whitespace. -/
def pyStrip (s : Text) : Text :=
  ((s.dropWhile pyIsSpace).reverse.dropWhile pyIsSpace).reverse

/-- One whitespace-separated split step: drop spaces, take a word. -/
def pySplitAux : Nat → Text → List Text
  | 0, _ => []
  | _ + 1, [] => []
  | f + 1, s =>
    let s' := s.dropWhile pyIsSpace
    match s' with
    | [] => []
    | _ :: _ =>
      let w := s'.takeWhile (fun c => !pyIsSpace c)
      w :: pySplitAux f (s'.drop w.length)

/-- Python `str.split()` with no argument: split on whitespace runs,
dropping empty fields. -/
def pySplit (s : Text) : List Text := pySplitAux (s.length + 1) s

/-- Decimal digit character. -/
def digitChar (d : Nat) : Char := Char.ofNat (48 + d)

/-- Decimal rendering of a natural number (Python `str(n)` / f-string). -/
def natToTextAux : Nat → Nat → Text
  | 0, _ => []
  | f + 1, n =>
    if n < 10 then [digitChar n]
    else natToTextAux f (n / 10) ++ [digitChar (n % 10)]

/-- Decimal rendering of a natural number. -/
def natToText (n : Nat) : Text := natToTextAux (n + 1) n

/-!
## ResponseParser (`BlogGenerationService._parse_response` and helpers)

The Python code uses four `re` patterns.  Each is translated into an
executable matcher that follows the backtracking order of the Python
engine for that concrete pattern (greedy quantifiers try the longest
repetition first, lazy ones the shortest, scanning is left to right).
-/

/-- Backtracking tail of `\s+(.+)$`: given the text after the `#`-run and
the size of its maximal whitespace run, try the largest whitespace
consumption first (greedy `\s+`), requiring at least one non-newline
character for `(.+)`; `$` then always holds because `(.+)` is greedy.
Returns the `(.+)` group and the consumed length. -/
def titleTailAt : Nat → Text → Option (Text × Nat)
  | 0, _ => none
  | ts + 1, t =>
    match t.drop (ts + 1) with
    | [] => titleTailAt ts t
    | c :: rest =>
      if c == '\n' then titleTailAt ts t
      else
        let grp := (c :: rest).takeWhile (fun d => d != '\n')
        some (grp, ts + 1 + grp.length)

/-- Match of `^#\s+(.+)$` at a line start (pattern of the title search in
`_parse_response`).  Returns the group and consumed length. -/
def matchTitleAt : Text → Option (Text × Nat)
  | '#' :: t =>
    (titleTailAt (t.takeWhile pyIsSpace).length t).map (fun p => (p.1, p.2 + 1))
  | _ => none

/-- `re.search(r'^#\s+(.+)$', raw, re.MULTILINE)`: scan positions left to
right, attempting the anchored match only at line starts. -/
def titleScanAux : Nat → Text → Bool → Option Text
  | 0, _, _ => none
  | _ + 1, [], _ => none
  | f + 1, c :: rest, atStart =>
    if atStart then
      match matchTitleAt (c :: rest) with
      | some p => some p.1
      | none => titleScanAux f rest (c == '\n')
    else titleScanAux f rest (c == '\n')

/-- Match of `^(#{1,3})\s+(.+)$` at a line start (heading pattern of
`_analyze_structure`).  A run of more than three `#` cannot match because
any shorter take leaves a `#` where `\s+` is required. -/
def matchHeadingAt (s : Text) : Option (Text × Text × Nat) :=
  let hashes := s.takeWhile (fun c => c == '#')
  let r := hashes.length
  if 1 ≤ r ∧ r ≤ 3 then
    let t := s.drop r
    match titleTailAt (t.takeWhile pyIsSpace).length t with
    | some p => some (hashes, p.1, r + p.2)
    | none => none
  else none

/-- `re.findall` of the heading pattern with `re.MULTILINE`: scan left to
right, match at line starts, continue after each match. -/
def headingsScanAux : Nat → Text → Bool → List (Text × Text)
  | 0, _, _ => []
  | _ + 1, [], _ => []
  | f + 1, c :: rest, atStart =>
    if atStart then
      match matchHeadingAt (c :: rest) with
      | some (lvl, g, len) => (lvl, g) :: headingsScanAux f ((c :: rest).drop len) false
      | none => headingsScanAux f rest (c == '\n')
    else headingsScanAux f rest (c == '\n')

/-- The lookahead `(?=\n##|\n\n*$)` of the sources-section patterns.
Without `re.MULTILINE`, `$` matches at end of input or just before a
final newline, so the second branch holds exactly when the remaining
text is a nonempty run of newlines. -/
def srcLookahead (r : Text) : Bool :=
  isPrefixL (str "\n##") r || (!r.isEmpty && r.all (fun c => c == '\n'))

/-- Lazy `(.*?)` under `re.DOTALL`: the smallest number of characters
whose removal makes the lookahead hold. -/
def lazyLenAux : Nat → Text → Option Nat
  | 0, s => if srcLookahead s then some 0 else none
  | f + 1, s =>
    if srcLookahead s then some 0
    else
      match s with
      | [] => none
      | _ :: rest => (lazyLenAux f rest).map (fun n => n + 1)

/-- Case-insensitive keyword alternation `(?:Sources|References|Citations)`;
returns the matched length. -/
def kwAt (s : Text) : Option Nat :=
  if isPrefixL (str "sources") (pyToLower (s.take 7)) then some 7
  else if isPrefixL (str "references") (pyToLower (s.take 10)) then some 10
  else if isPrefixL (str "citations") (pyToLower (s.take 9)) then some 9
  else none

/-- `\n+(.*?)(?=...)` of the search pattern: greedy newline run, largest
count first, then the lazy group. -/
def srcNlLoop : Nat → Text → Option Text
  | 0, _ => none
  | n + 1, w =>
    let q := w.drop (n + 1)
    match lazyLenAux q.length q with
    | some len => some (q.take len)
    | none => srcNlLoop n w

/-- `\s*\n+(.*?)(?=...)` after the keyword: greedy `\s*` (largest first,
down to zero), then the newline run. -/
def srcTryT2 (v : Text) (t2 : Nat) : Option Text :=
  let w := v.drop t2
  srcNlLoop (w.takeWhile (fun c => c == '\n')).length w

/-- Descending loop over the `\s*` length after the keyword. -/
def srcWsLoop : Nat → Text → Option Text
  | 0, v => srcTryT2 v 0
  | t2 + 1, v =>
    match srcTryT2 v (t2 + 1) with
    | some g => some g
    | none => srcWsLoop t2 v

/-- Keyword and everything after it, for the search pattern. -/
def srcAfterWs1 (u : Text) : Option Text :=
  match kwAt u with
  | some klen =>
    let v := u.drop klen
    srcWsLoop (v.takeWhile pyIsSpace).length v
  | none => none

/-- Descending loop over the `\s*` length right after `##` (search pattern). -/
def srcT1Loop : Nat → Text → Option Text
  | 0, t => srcAfterWs1 t
  | t1 + 1, t =>
    match srcAfterWs1 (t.drop (t1 + 1)) with
    | some g => some g
    | none => srcT1Loop t1 t

/-- Attempt of `##\s*(?:Sources|References|Citations)\s*\n+(.*?)(?=\n##|\n\n*$)`
(flags `re.DOTALL | re.IGNORECASE`) at one position; returns group 1. -/
def matchSourcesSearchAt : Text → Option Text
  | '#' :: '#' :: t => srcT1Loop (t.takeWhile pyIsSpace).length t
  | _ => none

/-- `re.search` of the sources-section pattern: first position, scanning
left to right, where the attempt succeeds. -/
def srcSearchAux : Nat → Text → Option Text
  | 0, _ => none
  | f + 1, s =>
    match matchSourcesSearchAt s with
    | some g => some g
    | none =>
      match s with
      | [] => none
      | _ :: rest => srcSearchAux f rest

/-- `re.search` of the sources-section pattern over a whole text. -/
def srcSearch (s : Text) : Option Text := srcSearchAux (s.length + 1) s

/-- Keyword and lazy tail of the removal pattern
`##\s*(?:Sources|References|Citations).*?(?=\n##|\n\n*$)`; returns the
consumed length from the start of the keyword. -/
def subAfterWs1 (u : Text) : Option Nat :=
  match kwAt u with
  | some klen =>
    let v := u.drop klen
    (lazyLenAux v.length v).map (fun len => klen + len)
  | none => none

/-- Descending loop over the `\s*` length for the removal pattern. -/
def subT1Loop : Nat → Text → Option Nat
  | 0, t => subAfterWs1 t
  | t1 + 1, t =>
    match subAfterWs1 (t.drop (t1 + 1)) with
    | some l => some (t1 + 1 + l)
    | none => subT1Loop t1 t

/-- Attempt of the removal pattern at one position; returns the match length. -/
def matchSourcesSubAt : Text → Option Nat
  | '#' :: '#' :: t =>
    (subT1Loop (t.takeWhile pyIsSpace).length t).map (fun l => l + 2)
  | _ => none

/-- `re.sub(pattern, '', raw)`: scan left to right replacing every
non-overlapping match with the empty string. -/
def subSourcesAux : Nat → Text → Text
  | 0, s => s
  | _ + 1, [] => []
  | f + 1, c :: rest =>
    match matchSourcesSubAt (c :: rest) with
    | some len => subSourcesAux f ((c :: rest).drop len)
    | none => c :: subSourcesAux f rest

/-- Sources-section removal over a whole text (`_parse_response`, the
`re.sub` call), before the final `.strip()`. -/
def subSources (s : Text) : Text := subSourcesAux s.length s

/-- `re.findall(r'\[([^\]]+)\]\(([^\)]+)\)', sources_text)`: the character
classes exclude the closing bracket, so each attempt is deterministic;
on failure the scan advances one character, on success it continues
after the match. -/
def findCitationsAux : Nat → Text → List (Text × Text)
  | 0, _ => []
  | _ + 1, [] => []
  | f + 1, c :: rest =>
    if c == '[' then
      let a := rest.takeWhile (fun d => d != ']')
      match a, rest.drop a.length with
      | _ :: _, ']' :: '(' :: rest2 =>
        let b := rest2.takeWhile (fun d => d != ')')
        match b, rest2.drop b.length with
        | _ :: _, ')' :: rest3 => (a, b) :: findCitationsAux f rest3
        | _, _ => findCitationsAux f rest
      | _, _ => findCitationsAux f rest
    else findCitationsAux f rest

/-- Characters admissible in a URL scheme (`urllib.parse`). -/
def isSchemeChar (c : Char) : Bool :=
  c.isAlphanum || c == '+' || c == '-' || c == '.'

/-- A character that ends the netloc segment. -/
def netlocEnd (c : Char) : Bool := c == '/' || c == '?' || c == '#'

/-- `urllib.parse.urlparse(url).netloc`: the segment after a leading `//`
(possibly preceded by `scheme:`) up to the next `/`, `?` or `#`;
empty when the URL has no `//`.  This is the segment value only; the
bracket validation `urlsplit` performs on it — which can raise — is
modelled by `urlparseRaises`. -/
def urlNetloc (url : Text) : Text :=
  if isPrefixL (str "//") url then
    (url.drop 2).takeWhile (fun c => !netlocEnd c)
  else
    let scheme := url.takeWhile isSchemeChar
    match scheme, url.drop scheme.length with
    | c0 :: _, ':' :: rest =>
      if c0.isAlpha ∧ isPrefixL (str "//") rest then
        (rest.drop 2).takeWhile (fun c => !netlocEnd c)
      else []
    | _, _ => []

/-- Python `netloc.replace('www.', '')`: removes every (non-overlapping)
occurrence of the substring `www.`, scanning left to right. -/
def pyReplaceWwwAux : Nat → Text → Text
  | 0, s => s
  | _ + 1, [] => []
  | f + 1, c :: rest =>
    if isPrefixL (str "www.") (c :: rest) then pyReplaceWwwAux f ((c :: rest).drop 4)
    else c :: pyReplaceWwwAux f rest

/-- `netloc.replace('www.', '')` over a whole text. -/
def pyReplaceWww (s : Text) : Text := pyReplaceWwwAux s.length s

/-- `urllib.parse.urlsplit` raises `ValueError("Invalid IPv6 URL")` when
the extracted netloc contains one kind of square bracket without the
other.  This predicate is that version-independent validation (newer
Python versions additionally validate bracketed hosts; no claim here
depends on those inputs). -/
def urlparseRaises (url : Text) : Bool :=
  let h := urlNetloc url
  (h.contains '[' && !(h.contains ']')) || (h.contains ']' && !(h.contains '['))

/-- Whether `_parse_sources` raises: it calls `urlparse` on every
captured citation URL, so it raises exactly when some capture fails the
netloc bracket validation. -/
def parseSourcesRaises (sourcesText : Text) : Bool :=
  (findCitationsAux (sourcesText.length + 1) sourcesText).any (fun p => urlparseRaises p.2)

/-- Whether `_parse_response` raises: the only raising call on its path
is `urlparse` inside `_parse_sources`, reached exactly when a sources
section was found. -/
def parseResponseRaises (raw : Text) : Bool :=
  match srcSearch raw with
  | some grp => parseSourcesRaises grp
  | none => false

/-- A sources section whose citation URL has a mismatched square
bracket, on which the real parser raises. -/
def c6badInput : Text := str "## Sources\n- [T](http://[a)\n"

/-- One extracted source citation (`_parse_sources` entry). -/
structure ParsedSource where
  title : Text
  url : Text
  domain : Text
  is_verified : Bool
  relevance_score : Option Rat
deriving DecidableEq

/-- `BlogGenerationService._parse_sources`: the value computed when no
exception is raised (`parseSourcesRaises` says when one is). -/
def parseSources (sourcesText : Text) : List ParsedSource :=
  (findCitationsAux (sourcesText.length + 1) sourcesText).map (fun p =>
    { title := pyStrip p.1
      url := pyStrip p.2
      domain := pyReplaceWww (urlNetloc p.2)
      is_verified := false
      relevance_score := none })

/-- Values appearing in the `structure` dictionary built by
`_analyze_structure` (a JSON-like dict; string values are possible for
dicts in general but `_analyze_structure` never stores one). -/
inductive StructVal where
  | nat (v : Nat)
  | strv (v : Text)
  | headings (v : List (Text × Text))
deriving DecidableEq

/-- Dictionary lookup (`dict.get`). -/
def dictGet (d : List (Text × StructVal)) (k : Text) : Option StructVal :=
  (d.find? (fun p => p.1 == k)).map (fun p => p.2)

/-- `BlogGenerationService._analyze_structure`. -/
def analyzeStructure (markdown : Text) : List (Text × StructVal) :=
  let hs := headingsScanAux (markdown.length + 1) markdown true
  let wc := (pySplit markdown).length
  [(str "word_count", .nat wc),
   (str "heading_count", .nat hs.length),
   (str "reading_time_minutes", .nat (max 1 (wc / 200))),
   (str "headings", .headings hs)]

/-- Result of `BlogGenerationService._parse_response`; the Python dict
keys `markdown`, `sources`, `title`, `structure` become fields (the
last renamed `struct`, a Lean keyword). -/
structure ParsedResponse where
  markdown : Text
  sources : List ParsedSource
  title : Option Text
  struct : List (Text × StructVal)
deriving DecidableEq

/-- `BlogGenerationService._parse_response`: the value computed when no
exception is raised (`parseResponseRaises` says when one is). -/
def parseResponse (raw : Text) : ParsedResponse :=
  let title := (titleScanAux (raw.length + 1) raw true).map pyStrip
  match srcSearch raw with
  | some grp =>
    let md := pyStrip (subSources raw)
    { markdown := md, sources := parseSources grp, title := title,
      struct := analyzeStructure md }
  | none =>
    { markdown := raw, sources := [], title := title,
      struct := analyzeStructure raw }

/-!
## CircuitBreaker (`_check_circuit_state` / `_record_success` / `_record_failure`)

Time is modelled as an integer (`time.time()` values are totally ordered;
nothing in the code depends on fractional seconds).  The class attributes
`CIRCUIT_FAILURE_THRESHOLD` and `CIRCUIT_COOL_OFF_SECONDS` default to 3
and 30.  The per-provider `_provider_state` dictionary is a function from
provider names to states; the lock serialises the updates, so the model
applies them sequentially.
-/

/-- Default of `LLM_CIRCUIT_FAILURE_THRESHOLD`. -/
def circuitFailureThreshold : Nat := 3

/-- Default of `LLM_CIRCUIT_COOL_OFF_SECONDS`. -/
def circuitCoolOffSeconds : Int := 30

/-- One provider's entry of `_provider_state`. -/
structure CircuitState where
  failures : Nat
  open_until : Int
deriving DecidableEq

/-- Initial per-provider state (`failures 0`, `open_until 0.0`). -/
def circuitInit : CircuitState := { failures := 0, open_until := 0 }

/-- `_check_circuit_state`: raises `PROVIDER_UNAVAILABLE` exactly when
`open_until > now`; returns the retry-after estimate then. -/
def checkCircuit (st : CircuitState) (now : Int) : Option Int :=
  if st.open_until > now then some (st.open_until - now) else none

/-- `_record_success`: reset the provider's entry to
`failures 0, open_until 0.0`. -/
def recordSuccess (_st : CircuitState) : CircuitState := circuitInit

/-- `_record_failure` at time `now`: increment the count and, when it has
reached the threshold, move `open_until` to `now + cool_off`. -/
def recordFailure (st : CircuitState) (now : Int) : CircuitState :=
  let failures := st.failures + 1
  if circuitFailureThreshold ≤ failures then
    { failures := failures, open_until := now + circuitCoolOffSeconds }
  else
    { failures := failures, open_until := st.open_until }

/-- The whole `_provider_state` map. -/
def ProviderStates := Text → CircuitState

/-- `_record_failure` for one provider of the shared map (the entry of
`self.provider` is replaced, other providers are untouched). -/
def recordFailureFor (m : ProviderStates) (p : Text) (now : Int) : ProviderStates :=
  fun q => if q = p then recordFailure (m p) now else m q

/-- `_record_success` for one provider of the shared map. -/
def recordSuccessFor (m : ProviderStates) (p : Text) : ProviderStates :=
  fun q => if q = p then recordSuccess (m p) else m q

/-- A sequence of consecutive `_record_failure` calls for one provider at
the given times, earliest first. -/
def applyFailures (m : ProviderStates) (p : Text) (times : List Int) : ProviderStates :=
  times.foldl (fun acc t => recordFailureFor acc p t) m

/-!
## RetryExecutor (`_call_claude_with_retry` / `_call_gemini_with_retry`)

The provider HTTP call is external input: an oracle gives the outcome of
each attempt (indexed by attempt number).  For the Gemini path, the
fields `errMessage` / `errReason` carry what the Python `json.loads`
block extracts from the error body (`error.message` and the first
`details[].reason`); the JSON decoding itself is modelled as this given
data.  `RETRY_DELAY` is `1.0`, so sleeps are recorded as `2 ^ attempt`
seconds.  `MAX_RETRIES` defaults to 2.
-/

/-- Default of `CLAUDE_MAX_RETRIES`. -/
def maxRetriesDefault : Nat := 2

/-- A `ServiceError`: message, machine code and the `details` entries the
generation service actually sets (absent entries are `none`). -/
structure ServiceErrorM where
  message : Text
  code : Text
  details_provider : Option Text
  details_status : Option Nat
  details_last_error : Option Text
deriving DecidableEq

/-- Successful provider-call result (`content` plus the usage block;
token fields come straight from the response, `retry_count` is the
attempt index that succeeded). -/
structure CallOk where
  content : Text
  input_tokens : Nat
  output_tokens : Nat
  total_tokens : Nat
  retry_count : Nat
deriving DecidableEq

deriving instance DecidableEq for Except

/-- Outcome of the retry loop plus its observable effects: the attempts
actually made, the sleeps performed (in seconds), and whether
`_record_failure` ran. -/
structure RetryResult where
  result : Except ServiceErrorM CallOk
  attempts : Nat
  sleeps : List Nat
  recordedFailure : Bool
deriving DecidableEq

/-- One Anthropic attempt outcome: a response, an `AnthropicError` with
its optional `status_code` and message, or any other exception. -/
inductive ClaudeOutcome where
  | ok (content : Text) (inTok outTok : Nat)
  | anthropicErr (status : Option Nat) (msg : Text)
  | otherErr (msg : Text)
deriving DecidableEq

/-- `status_code and status_code < 500 and status_code != 429`: the
fail-fast test (a `None` or `0` status is falsy in Python). -/
def claudeStatusFatal : Option Nat → Bool
  | none => false
  | some c => !(c == 0) && c < 500 && !(c == 429)

/-- An outcome the Claude loop retries: an `AnthropicError` that is not
fail-fast.  (A non-`AnthropicError` exception breaks the loop instead.) -/
def claudeRetriable : ClaudeOutcome → Bool
  | .anthropicErr st _ => !claudeStatusFatal st
  | _ => false

/-- Message text of an outcome (`str(e)`). -/
def claudeOutcomeMsg : ClaudeOutcome → Text
  | .ok _ _ _ => []
  | .anthropicErr _ m => m
  | .otherErr m => m

/-- The `ServiceError` raised after the Claude loop exhausts or breaks. -/
def claudeApiError (lastError : Option Text) : ServiceErrorM :=
  { message := str "Failed to generate content after retry attempts. Please try again shortly."
    code := str "API_ERROR"
    details_provider := some (str "anthropic")
    details_status := none
    details_last_error := lastError }

/-- The fail-fast `ServiceError` of the Claude loop: billing when the
message mentions low credit balance, otherwise a request error. -/
def claudeFatalError (status : Nat) (msg : Text) : ServiceErrorM :=
  if containsSub (str "credit balance is too low") (pyToLower msg) then
    { message := str "Anthropic billing issue: insufficient API credits. Please top up your Anthropic account and try again."
      code := str "BILLING_ERROR"
      details_provider := some (str "anthropic")
      details_status := some status
      details_last_error := none }
  else
    { message := str "Anthropic request failed: " ++ msg
      code := str "API_REQUEST_ERROR"
      details_provider := some (str "anthropic")
      details_status := some status
      details_last_error := none }

/-- The `for attempt in range(max_retries + 1)` loop of
`_call_claude_with_retry`; `remaining` is `max_retries + 1 - attempt`,
so a retriable error sleeps exactly when `remaining > 1`
(`attempt < max_retries`). -/
def claudeGo (f : Nat → ClaudeOutcome) : Nat → Nat → Option Text → List Nat → RetryResult
  | 0, attempt, lastErr, sleeps =>
    { result := .error (claudeApiError lastErr), attempts := attempt,
      sleeps := sleeps, recordedFailure := true }
  | r + 1, attempt, _lastErr, sleeps =>
    match f attempt with
    | .ok content inTok outTok =>
      { result := .ok { content := content, input_tokens := inTok, output_tokens := outTok,
                        total_tokens := inTok + outTok, retry_count := attempt }
        attempts := attempt + 1, sleeps := sleeps, recordedFailure := false }
    | .anthropicErr st msg =>
      if claudeStatusFatal st then
        { result := .error (claudeFatalError (st.getD 0) msg), attempts := attempt + 1,
          sleeps := sleeps, recordedFailure := false }
      else
        claudeGo f r (attempt + 1) (some msg)
          (if r == 0 then sleeps else sleeps ++ [2 ^ attempt])
    | .otherErr msg =>
      { result := .error (claudeApiError (some msg)), attempts := attempt + 1,
        sleeps := sleeps, recordedFailure := true }

/-- `_call_claude_with_retry` with the attempt outcomes given by `f`. -/
def callClaudeWithRetry (f : Nat → ClaudeOutcome) (maxRetries : Nat) : RetryResult :=
  claudeGo f (maxRetries + 1) 0 none []

/-- One Gemini attempt outcome: a response, an `urllib.error.HTTPError`
with its status code, body, and the JSON-extracted `error.message` /
`details[].reason`, or any other exception. -/
inductive GeminiOutcome where
  | ok (content : Text) (pTok cTok tTok : Nat)
  | httpErr (code : Nat) (body : Text) (errMessage : Text) (errReason : Text)
  | otherErr (msg : Text)
deriving DecidableEq

/-- `last_error` text for an HTTP error (`f"HTTP {e.code}: {body}"`). -/
def geminiHttpLastError (code : Nat) (body : Text) : Text :=
  str "HTTP " ++ natToText code ++ str ": " ++ body

/-- The 429 quota/billing fail-fast test of the Gemini loop. -/
def gemini429Billing (body : Text) : Bool :=
  containsSub (str "resource_exhausted") (pyToLower body) ||
  containsSub (str "exceeded your current quota") (pyToLower body) ||
  containsSub (str "billing") (pyToLower body)

/-- Fatal classification of a Gemini HTTP error: 429 with quota/billing
markers, or any other non-429 status below 500. -/
def geminiHttpFatal (code : Nat) (body : Text) : Bool :=
  (code == 429 && gemini429Billing body) ||
  (code < 500 && !(code == 429))

/-- The fail-fast `ServiceError` of the Gemini loop (auth, billing, or
request error, in the order the code tests them). -/
def geminiFatalError (code : Nat) (body : Text) (errMessage errReason : Text) : ServiceErrorM :=
  if code == 429 && gemini429Billing body then
    { message := str "Gemini quota/billing issue: current key has exhausted quota. Enable billing or use a key/project with available quota."
      code := str "BILLING_ERROR", details_provider := some (str "gemini")
      details_status := some code, details_last_error := none }
  else if errReason = str "API_KEY_INVALID" ∨ containsSub (str "api key expired") (pyToLower body) then
    { message := str "Gemini API key is invalid or expired. Create/rotate a valid key and retry."
      code := str "AUTH_ERROR", details_provider := some (str "gemini")
      details_status := some code, details_last_error := none }
  else if containsSub (str "quota") (pyToLower body) ||
      containsSub (str "billing") (pyToLower body) ||
      containsSub (str "resource_exhausted") (pyToLower body) then
    { message := str "Gemini billing/quota issue: please enable billing or increase quota."
      code := str "BILLING_ERROR", details_provider := some (str "gemini")
      details_status := some code, details_last_error := none }
  else
    { message := str "Gemini request failed: " ++
        (if errMessage = [] then str "check API key, model name, and payload." else errMessage)
      code := str "API_REQUEST_ERROR", details_provider := some (str "gemini")
      details_status := some code, details_last_error := none }

/-- The final `ServiceError` after the Gemini loop exhausts. -/
def geminiApiError (lastError : Option Text) : ServiceErrorM :=
  { message := str "Failed to generate content after retry attempts. Please try again shortly."
    code := str "API_ERROR"
    details_provider := some (str "gemini")
    details_status := none
    details_last_error := some (lastError.getD (str "None")) }

/-- `last_error` text an outcome leaves behind. -/
def geminiOutcomeLastError : GeminiOutcome → Text
  | .ok _ _ _ _ => []
  | .httpErr code body _ _ => geminiHttpLastError code body
  | .otherErr m => m

/-- An outcome the Gemini loop retries: a 5xx or plain-429 HTTP error, or
any non-HTTP exception (which, unlike the Claude loop, is retried). -/
def geminiRetriable : GeminiOutcome → Bool
  | .ok _ _ _ _ => false
  | .httpErr code body _ _ => !geminiHttpFatal code body
  | .otherErr _ => true

/-- The `for attempt in range(max_retries + 1)` loop of
`_call_gemini_with_retry`. -/
def geminiGo (f : Nat → GeminiOutcome) : Nat → Nat → Option Text → List Nat → RetryResult
  | 0, attempt, lastErr, sleeps =>
    { result := .error (geminiApiError lastErr), attempts := attempt,
      sleeps := sleeps, recordedFailure := true }
  | r + 1, attempt, _lastErr, sleeps =>
    match f attempt with
    | .ok content pTok cTok tTok =>
      { result := .ok { content := content, input_tokens := pTok, output_tokens := cTok,
                        total_tokens := tTok, retry_count := attempt }
        attempts := attempt + 1, sleeps := sleeps, recordedFailure := false }
    | .httpErr code body errMessage errReason =>
      if geminiHttpFatal code body then
        { result := .error (geminiFatalError code body errMessage errReason),
          attempts := attempt + 1, sleeps := sleeps, recordedFailure := false }
      else
        geminiGo f r (attempt + 1) (some (geminiHttpLastError code body))
          (if r == 0 then sleeps else sleeps ++ [2 ^ attempt])
    | .otherErr msg =>
      geminiGo f r (attempt + 1) (some msg)
        (if r == 0 then sleeps else sleeps ++ [2 ^ attempt])

/-- `_call_gemini_with_retry` with the attempt outcomes given by `f`. -/
def callGeminiWithRetry (f : Nat → GeminiOutcome) (maxRetries : Nat) : RetryResult :=
  geminiGo f (maxRetries + 1) 0 none []

/-!
## GenerationOrchestrator (`BlogGenerationService.generate_post`)

The provider call of step 5 is external input, abstracted as its
observable outcome (`_call_model_with_retry` either returns a response,
raises a `ServiceError`, or raises some other exception).  The database
record is an explicit value; `published_at` becomes a flag.  The slug
uniquification loop of `_create_post_record` touches only the slug,
which no claim mentions, and is not modelled.
-/

/-- A `ServiceError` with no `details` entries set. -/
def serviceError (message code : Text) : ServiceErrorM :=
  { message := message, code := code, details_provider := none,
    details_status := none, details_last_error := none }

/-- `BaseService.handle_exception`: wraps any exception text in a
`ServiceError` with the default `SERVICE_ERROR` code. -/
def handleException (msg : Text) : ServiceErrorM :=
  serviceError msg (str "SERVICE_ERROR")

/-- Text-valued dictionary lookup. -/
def dictGetT (d : List (Text × Text)) (k : Text) : Option Text :=
  (d.find? (fun p => p.1 == k)).map (fun p => p.2)

/-- Dictionary update `d[k] = v` (overwrite or append). -/
def dictSet (d : List (Text × Text)) (k v : Text) : List (Text × Text) :=
  if (d.find? (fun p => p.1 == k)).isSome then
    d.map (fun p => if p.1 == k then (k, v) else p)
  else d ++ [(k, v)]

/-- Python dict merge (`left entries, right entries win`). -/
def dictMerge (a b : List (Text × Text)) : List (Text × Text) :=
  b.foldl (fun acc p => dictSet acc p.1 p.2) a

/-- `BlogPost.PostStatus`. -/
inductive PostStatus where
  | draft
  | generating
  | completed
  | failed
deriving DecidableEq

/-- The fields of a `BlogPost` row the generation workflow touches. -/
structure BlogPostRec where
  title : Text
  topic_input : Text
  raw_prompt : Text
  generated_content : Text
  content_structure : List (Text × StructVal)
  sources : List ParsedSource
  status : PostStatus
  sentiment_score : Int
  metadata : List (Text × Text)
  published : Bool
deriving DecidableEq

/-- `_create_post_record`: the placeholder record in `generating` state. -/
def createPostRecord (topic rawPrompt : Text) : BlogPostRec :=
  { title := str "Draft: " ++ topic.take 50 ++ str "..."
    topic_input := topic
    raw_prompt := rawPrompt
    generated_content := []
    content_structure := []
    sources := []
    status := PostStatus.generating
    sentiment_score := 0
    metadata := []
    published := false }

/-- `_update_post_with_content`: store body, sources and structure, take
the title from `structure.get('title')` when that key holds a non-empty
string, merge the usage metadata, move to `completed`, set the publish
timestamp, and recompute the sentiment score (a fresh record has no
engagements, so it becomes 0). -/
def updatePostWithContent (post : BlogPostRec) (content : Text)
    (sources : List ParsedSource) (struct : List (Text × StructVal))
    (metadata : List (Text × Text)) : BlogPostRec :=
  let post :=
    { post with generated_content := content, sources := sources,
                content_structure := struct }
  let post :=
    match dictGet struct (str "title") with
    | some (StructVal.strv t) => if t.isEmpty then post else { post with title := t.take 300 }
    | _ => post
  { post with metadata := dictMerge post.metadata metadata,
              status := PostStatus.completed, published := true,
              sentiment_score := 0 }

/-- `_validate_generation_input`. -/
def validateGenerationInput (topic personaSlug : Text) : Option ServiceErrorM :=
  if topic.isEmpty || (pyStrip topic).length < 5 then
    some (serviceError (str "Topic must be at least 5 characters long") (str "INVALID_TOPIC"))
  else if personaSlug.isEmpty then
    some (serviceError (str "Persona slug is required") (str "INVALID_PERSONA"))
  else none

/-- What the step-5 provider call (`_call_model_with_retry`) does, as
observed by `generate_post`: a response, a raised `ServiceError`, or a
raised non-`ServiceError` exception. -/
inductive CallOutcome where
  | success (content : Text) (usage : List (Text × Text))
  | failServiceError (e : ServiceErrorM)
  | failOther (msg : Text)
deriving DecidableEq

/-- Observable outcome of `generate_post`: the error re-raised to the
caller, if any, and the final content record, if one was created. -/
structure GenOutcome where
  raised : Option ServiceErrorM
  post : Option BlogPostRec
deriving DecidableEq

/-- `BlogGenerationService.generate_post`: validation and persona lookup
happen before the record exists; after the record is created, a raised
`ServiceError` moves it to `failed` and re-raises unchanged, while any
other exception moves it to `failed`, stores the error text under the
`error` metadata key, and re-raises wrapped by `handle_exception`.  The
`success` branch models a response whose parse raises no exception
(`parseResponseRaises content = false`); a parse exception takes the
same path as `failOther`. -/
def generatePost (topic personaSlug : Text) (personaFound : Bool)
    (rawPrompt : Text) (call : CallOutcome) : GenOutcome :=
  match validateGenerationInput topic personaSlug with
  | some e => { raised := some e, post := none }
  | none =>
    if !personaFound then
      { raised := some (serviceError (str "Active persona not found") (str "PERSONA_NOT_FOUND"))
        post := none }
    else
      let post0 := createPostRecord topic rawPrompt
      match call with
      | .success content usage =>
        let parsed := parseResponse content
        { raised := none
          post := some (updatePostWithContent post0 parsed.markdown parsed.sources
                          parsed.struct usage) }
      | .failServiceError e =>
        { raised := some e, post := some { post0 with status := PostStatus.failed } }
      | .failOther msg =>
        { raised := some (handleException msg)
          post := some { post0 with status := PostStatus.failed,
                                    metadata := dictSet post0.metadata (str "error") msg } }

/-!
## EngagementService (`record_action` / `_update_post_metrics`)

The database is a list of `Engagement` rows plus the set of existing
post ids.  `_update_post_metrics` runs inside a row lock; the model
applies it sequentially.  The exact human-readable validation messages
carry the offending ids and are not reproduced; the codes are.
-/

/-- One `Engagement` row. -/
structure EngRow where
  blog_post : Nat
  session_id : Text
  action : Text
  metadata : List (Text × Text)
deriving DecidableEq

/-- The engagement-relevant database state. -/
structure EngState where
  posts : List Nat
  rows : List EngRow
deriving DecidableEq

/-- `Engagement.objects.filter(blog_post_id=..., session_id=...).first()`. -/
def findEngagement (rows : List EngRow) (p : Nat) (s : Text) : Option EngRow :=
  rows.find? (fun r => r.blog_post == p && r.session_id == s)

/-- `existing.delete()`: remove the row found by `first()`. -/
def deleteEngagement : List EngRow → Nat → Text → List EngRow
  | [], _, _ => []
  | r :: rest, p, s =>
    if r.blog_post == p && r.session_id == s then rest
    else r :: deleteEngagement rest p s

/-- `Engagement.objects.update_or_create(...)` keyed on (post, session). -/
def upsertEngagement (rows : List EngRow) (p : Nat) (s : Text) (a : Text)
    (md : List (Text × Text)) : List EngRow :=
  if (findEngagement rows p s).isSome then
    rows.map (fun r =>
      if r.blog_post == p && r.session_id == s then
        { r with action := a, metadata := md }
      else r)
  else rows ++ [{ blog_post := p, session_id := s, action := a, metadata := md }]

/-- `filter(action='like').count()` for one post. -/
def likesCount (rows : List EngRow) (p : Nat) : Nat :=
  (rows.filter (fun r => r.blog_post == p && r.action == str "like")).length

/-- `filter(action='dislike').count()` for one post. -/
def dislikesCount (rows : List EngRow) (p : Nat) : Nat :=
  (rows.filter (fun r => r.blog_post == p && r.action == str "dislike")).length

/-- The stored sentiment score, `likes - dislikes`. -/
def sentimentOf (rows : List EngRow) (p : Nat) : Int :=
  (likesCount rows p : Int) - (dislikesCount rows p : Int)

/-- Success payload of `record_action`. -/
structure EngResult where
  action : Text
  new_score : Int
  was_toggle : Bool
  likes_count : Nat
  dislikes_count : Nat
deriving DecidableEq

/-- `EngagementService.record_action` with toggle semantics, followed by
`_update_post_metrics`. -/
def recordAction (st : EngState) (p : Nat) (s : Text) (a : Text)
    (md : List (Text × Text)) : Except ServiceErrorM (EngResult × EngState) :=
  if !(st.posts.contains p) then
    .error (serviceError (str "Blog post not found") (str "POST_NOT_FOUND"))
  else if !(a == str "like" || a == str "dislike") then
    .error (serviceError (str "Invalid action") (str "INVALID_ACTION"))
  else
    let existing := findEngagement st.rows p s
    let step :
        List EngRow × Bool :=
      match existing with
      | some r =>
        if r.action == a then (deleteEngagement st.rows p s, true)
        else (upsertEngagement st.rows p s a md, false)
      | none => (upsertEngagement st.rows p s a md, false)
    let rows' := step.1
    let likes := likesCount rows' p
    let dislikes := dislikesCount rows' p
    .ok ({ action := a, new_score := (likes : Int) - (dislikes : Int),
           was_toggle := step.2, likes_count := likes, dislikes_count := dislikes },
         { st with rows := rows' })

/-!
## PromptBuilder (`PromptService._render_user_prompt`)

The Jinja template `USER_PROMPT_TEMPLATE` is rendered by direct
concatenation: `\x7b\x7b var \x7d\x7d` substitutions become arguments, and each
`if` block contributes its text exactly when its condition holds.  The
`style_guidance` value (from `_get_persona_custom_variables`) is taken
as a parameter.  Word-range bounds are the settings defaults
(`FAST_MIN_WORDS 180`, `FAST_MAX_WORDS 260`, `NORMAL_MIN_WORDS 800`,
`NORMAL_MAX_WORDS 1200`).  Blank-line placement around stripped block
tags is kept as in the template body.
-/

/-- The sources-section directive emitted under `include_sources`. -/
def sourcesDirective : Text :=
  str "After the main content, include a \"## Sources\" section listing all references."

/-- The fast-mode extra requirement line. -/
def fastDirective : Text :=
  str "- Optimize for speed: keep the response concise and focused."

/-- The itemized `additional_context` block (omitted when empty). -/
def contextBlock (ctx : List (Text × Text)) : Text :=
  if ctx.isEmpty then []
  else
    str "\nAdditional context to consider:\n" ++
    ctx.foldl (fun acc p => acc ++ str "- " ++ p.1 ++ str ": " ++ p.2 ++ str "\n") [] ++
    str "\n"

/-- The rendered `Length:` requirement line. -/
def lengthLine (minW maxW : Nat) : Text :=
  str "- Length: " ++ natToText minW ++ str "-" ++ natToText maxW ++ str " words\n"

/-- The fixed requirement lines between the length line and the style
guidance. -/
def promptMidLines : Text :=
  str "- Include a compelling, descriptive headline\n- Use markdown formatting (## for subheadings, ** for emphasis)\n- End with a summary paragraph of key takeaways\n- If specific sources are referenced, format as [Source Name](url)\n- "

/-- `PromptService._render_user_prompt`. -/
def renderUserPrompt (topic : Text) (ctx : List (Text × Text))
    (styleGuidance : Text) (speed : Text) : Text :=
  let is_fast := speed == str "fast"
  let minWords : Nat := if is_fast then 180 else 800
  let maxWords : Nat := if is_fast then 260 else 1200
  str "\nWrite a comprehensive blog post about: " ++ topic ++ str "\n\n" ++
  contextBlock ctx ++
  str "\nRequirements:\n" ++ lengthLine minWords maxWords ++
  promptMidLines ++ styleGuidance ++ str "\n" ++
  (if is_fast then fastDirective ++ str "\n" else []) ++
  (if is_fast then [] else str "\n" ++ sourcesDirective ++ str "\n")

/-!
## Claim support: domain derivation (C9)
-/

/-- Following the spec's words: the domain is "the URL's host with a
leading `www.` prefix stripped, and is otherwise the host unchanged".
This is the comparison definition for the refinement claim; the code's
definition is `pyReplaceWww`. -/
def specLeadingWwwStripped (host : Text) : Text :=
  if isPrefixL (str "www.") host then host.drop 4 else host

/-- The domain `_parse_sources` stores for one raw citation capture. -/
def citeDomain (p : Text × Text) : Text := pyReplaceWww (urlNetloc p.2)

/-!
## Concrete runs used by the claims
-/

/-- The round-trip input of the spec's testable property. -/
def c5input : Text :=
  str "# My Title\n\nBody text.\n\n## Sources\n- [Example](https://www.example.com/a)\n"

/-- The provider `AuthError` as the Gemini error path constructs it. -/
def authErrCe : ServiceErrorM :=
  geminiFatalError 400 (str "api key expired") [] (str "API_KEY_INVALID")

/-- A generation run in which the provider call raises the fatal
`AuthError` after the record was created. -/
def c1run : GenOutcome :=
  generatePost (str "Future of renewable energy") (str "technical") true
    (str "prompt") (CallOutcome.failServiceError authErrCe)

/-- A successful generation run whose model output carries an extractable
level-1 title. -/
def c2run : GenOutcome :=
  generatePost (str "Future of renewable energy") (str "technical") true
    (str "prompt") (CallOutcome.success c5input [])

/-- Status of the content record of a generation outcome. -/
def postStatus (g : GenOutcome) : Option PostStatus := g.post.map BlogPostRec.status

/-- The `error` metadata entry of the content record of a generation
outcome (inner `none` when the record has no such entry). -/
def postErrorMeta (g : GenOutcome) : Option (Option Text) :=
  g.post.map (fun r => dictGetT r.metadata (str "error"))

/-- Title of the content record of a generation outcome. -/
def postTitle (g : GenOutcome) : Option Text := g.post.map BlogPostRec.title

/-- The all-closed initial `_provider_state` map. -/
def constInitStates : ProviderStates := fun _ => circuitInit

/-- The representative topic used for concrete prompt instantiations. -/
def promptTopic : Text := str "Future of renewable energy"

/-- The technical persona's style guidance value. -/
def techGuidance : Text :=
  str "Use code blocks for technical examples. Define technical terms on first use."

/-- Database state after one `record_action` call (unchanged when the
call fails validation, which happens before any write). -/
def engAfter (st : EngState) (p : Nat) (s : Text) (a : Text) : EngState :=
  match recordAction st p s a [] with
  | .ok pr => pr.2
  | .error _ => st

/-- The rows stored for one (post, session) pair. -/
def pairRows (rows : List EngRow) (p : Nat) (s : Text) : List EngRow :=
  rows.filter (fun r => r.blog_post == p && r.session_id == s)

/-- The row `record_action` creates for a fresh `like`. -/
def likeRow (p : Nat) (s : Text) : EngRow :=
  { blog_post := p, session_id := s, action := str "like", metadata := [] }

/-- The row `record_action` leaves after switching the pair to `dislike`. -/
def dislikeRow (p : Nat) (s : Text) : EngRow :=
  { blog_post := p, session_id := s, action := str "dislike", metadata := [] }

/-- A one-post, no-engagements database. -/
def engSt0 : EngState := { posts := [1], rows := [] }

/-- An outcome on which the Claude loop fails fast. -/
def claudeFatal (o : ClaudeOutcome) : Bool :=
  match o with
  | .anthropicErr st _ => claudeStatusFatal st
  | _ => false

/-- An outcome on which the Gemini loop fails fast. -/
def geminiFatal (o : GeminiOutcome) : Bool :=
  match o with
  | .httpErr c b _ _ => geminiHttpFatal c b
  | _ => false

/-- The `ServiceError` the Claude loop raises for a fail-fast outcome. -/
def claudeFatalErrorOf : ClaudeOutcome → ServiceErrorM
  | .anthropicErr st msg => claudeFatalError (st.getD 0) msg
  | _ => serviceError [] []

/-- The `ServiceError` the Gemini loop raises for a fail-fast outcome. -/
def geminiFatalErrorOf : GeminiOutcome → ServiceErrorM
  | .httpErr c b m r => geminiFatalError c b m r
  | _ => serviceError [] []

/-- The error code of a retry run's result, when it raised. -/
def errCode (r : RetryResult) : Option Text :=
  match r.result with
  | .error e => some e.code
  | .ok _ => none

/-- An always-retriable Anthropic outcome oracle (5xx every attempt). -/
def cfRetri : Nat → ClaudeOutcome :=
  fun i => .anthropicErr (some 500) (str "server error " ++ natToText i)

/-- An always-retriable Gemini outcome oracle (503 every attempt). -/
def gfRetri : Nat → GeminiOutcome :=
  fun i => .httpErr 503 (str "unavailable " ++ natToText i) [] []

/-- A fail-fast Anthropic outcome oracle (400 on the first attempt). -/
def cfFatal : Nat → ClaudeOutcome :=
  fun _ => .anthropicErr (some 400) (str "invalid request")

/-- A fail-fast Gemini outcome oracle (400 on the first attempt). -/
def gfFatal : Nat → GeminiOutcome :=
  fun _ => .httpErr 400 (str "bad field") [] []

/-- `q` is a suffix of `s` (character-exact). -/
def isSuffixL (q s : Text) : Bool := isPrefixL q.reverse s.reverse

/-- No nonempty proper prefix of `p` is a suffix of `a`: rules out an
occurrence of `p` straddling the boundary of `a ++ b`. -/
def noStraddleB (a p : Text) : Bool :=
  (List.range p.length).all (fun k => (k == 0) || !(isSuffixL (p.take k) a))

set_option maxRecDepth 16384

example : str "ab" = ['a', 'b'] := by decide

example : containsSub (str "ll") (str "hello") = true := by decide

example : containsSub (str "lll") (str "hello") = false := by decide

example : pySplit (str "  a bc  d ") = [str "a", str "bc", str "d"] := by decide

example : pySplit (str "") = [] := by decide

example : pyStrip (str " \n x y \n") = str "x y" := by decide

example : natToText 1200 = str "1200" := by decide

example : pyToLower (str "API Key") = str "api key" := by decide

/-!
## Helper lemmas about the text primitives
-/

lemma isPrefixL_self_append (p t : Text) : isPrefixL p (p ++ t) = true := by
  induction p with
  | nil => cases t <;> rfl
  | cons a as ih => simp [isPrefixL, ih]

lemma eq_append_drop_of_isPrefixL (p : Text) :
    ∀ s : Text, isPrefixL p s = true → s = p ++ s.drop p.length := by
  induction p with
  | nil => intro s _; simp
  | cons a as ih =>
    intro s h
    cases s with
    | nil => simp [isPrefixL] at h
    | cons b bs =>
      simp only [isPrefixL, Bool.and_eq_true, beq_iff_eq] at h
      simpa [h.1] using congrArg (fun l => b :: l) (ih bs h.2)

lemma containsSub_of_isPrefixL (p s : Text) (h : isPrefixL p s = true) :
    containsSub p s = true := by
  cases s with
  | nil => simpa [containsSub] using h
  | cons c rest => simp [containsSub, h]

lemma isPrefixL_append_left (p a b : Text) (h : isPrefixL p a = true) :
    isPrefixL p (a ++ b) = true := by
  induction p generalizing a with
  | nil => cases a ++ b <;> rfl
  | cons x xs ih =>
    cases a with
    | nil => simp [isPrefixL] at h
    | cons y ys =>
      simp only [isPrefixL, Bool.and_eq_true] at h
      simpa [isPrefixL, h.1] using ih ys h.2

lemma containsSub_append_right (p a b : Text) (h : containsSub p b = true) :
    containsSub p (a ++ b) = true := by
  induction a with
  | nil => simpa using h
  | cons c rest ih => simp [containsSub, ih]

lemma containsSub_append_left (p a b : Text) (h : containsSub p a = true) :
    containsSub p (a ++ b) = true := by
  induction a with
  | nil =>
    simp only [containsSub] at h
    cases p with
    | nil => cases b <;> simp [containsSub, isPrefixL]
    | cons x xs => simp [isPrefixL] at h
  | cons c rest ih =>
    simp only [containsSub, Bool.or_eq_true] at h
    rcases h with h | h
    · exact containsSub_of_isPrefixL _ _ (isPrefixL_append_left _ _ _ h)
    · simp [containsSub, ih h]

lemma pyReplaceWwwAux_step (f : Nat) (t : Text) :
    pyReplaceWwwAux (f + 1) (str "www." ++ t) = pyReplaceWwwAux f t := rfl

lemma pyReplaceWwwAux_id (f : Nat) :
    ∀ s : Text, s.length ≤ f → containsSub (str "www.") s = false →
      pyReplaceWwwAux f s = s := by
  induction f with
  | zero => intro s _ _; rfl
  | succ f ih =>
    intro s hlen hsub
    cases s with
    | nil => rfl
    | cons c rest =>
      simp only [containsSub, Bool.or_eq_false_iff] at hsub
      simp only [pyReplaceWwwAux, hsub.1, if_false]
      have := ih rest (by simpa using Nat.le_of_succ_le_succ hlen) hsub.2
      simp [this]

lemma pyReplaceWww_spec_agree (h : Text)
    (hfree : containsSub (str "www.") (specLeadingWwwStripped h) = false) :
    pyReplaceWww h = specLeadingWwwStripped h := by
  by_cases hp : isPrefixL (str "www.") h = true
  · obtain heq := eq_append_drop_of_isPrefixL _ _ hp
    set t := h.drop (str "www.").length with ht
    have hspec : specLeadingWwwStripped h = t := by
      rw [heq]
      simp only [specLeadingWwwStripped, isPrefixL_self_append, if_true]
      rw [show (4 : Nat) = (str "www.").length from rfl, List.drop_left]
    rw [hspec] at hfree
    have hlen : h.length = t.length + 4 := by
      rw [heq]; simp [str]
    rw [hspec, pyReplaceWww, hlen, heq]
    rw [show t.length + 4 = (t.length + 3) + 1 from rfl]
    rw [pyReplaceWwwAux_step]
    exact pyReplaceWwwAux_id _ t (by omega) hfree
  · have hp' : isPrefixL (str "www.") h = false := by
      simpa using hp
    have hspec : specLeadingWwwStripped h = h := by
      simp [specLeadingWwwStripped, hp']
    rw [hspec] at hfree
    rw [hspec, pyReplaceWww]
    exact pyReplaceWwwAux_id _ h (Nat.le_refl _) hfree

/-!
## Claim theorems
-/

/-- C5: parsing `"# My Title\n\nBody text.\n\n## Sources\n- [Example](https://www.example.com/a)\n"`
yields title `My Title`, the single source
`Example / https://www.example.com/a / example.com / unverified / no
relevance score`, and a returned markdown body (here exactly
`# My Title\n\nBody text.`) containing no `## Sources` section. -/
theorem c5_parser_round_trip :
    (parseResponse c5input).title = some (str "My Title") ∧
    (parseResponse c5input).sources =
      [{ title := str "Example", url := str "https://www.example.com/a",
         domain := str "example.com", is_verified := false, relevance_score := none }] ∧
    (parseResponse c5input).markdown = str "# My Title\n\nBody text." ∧
    containsSub (str "## Sources") (parseResponse c5input).markdown = false := by
  decide

/-- C9 counterexample: for the auto-extracted citation
`- [T](https://foo.www.bar.com/x)` the stored domain is `foo.bar.com`,
but the URL's host `foo.www.bar.com` has no leading `www.` to strip, so
the claim's `domain = host with a leading www. stripped, otherwise the
host unchanged` fails at this input (`replace` removes an inner
occurrence too). -/
theorem c9_counterexample_domain :
    parseSources (str "- [T](https://foo.www.bar.com/x)") =
      [{ title := str "T", url := str "https://foo.www.bar.com/x",
         domain := str "foo.bar.com", is_verified := false, relevance_score := none }] ∧
    urlNetloc (str "https://foo.www.bar.com/x") = str "foo.www.bar.com" ∧
    specLeadingWwwStripped (str "foo.www.bar.com") = str "foo.www.bar.com" ∧
    ¬ str "foo.bar.com" = str "foo.www.bar.com" := by
  decide

/-- C9 amended: every auto-extracted source stores as domain the URL's
host with every occurrence of the substring `www.` removed (Python
`str.replace`); this coincides with stripping a leading `www.` whenever
the leading-stripped host contains no further `www.` occurrence. -/
theorem c9_amended_domain_replace_all :
    ∀ srcText : Text,
      (parseSources srcText).map ParsedSource.domain =
        (findCitationsAux (srcText.length + 1) srcText).map citeDomain ∧
      (∀ h : Text, containsSub (str "www.") (specLeadingWwwStripped h) = false →
        pyReplaceWww h = specLeadingWwwStripped h) := by
  intro srcText
  constructor
  · simp only [parseSources, List.map_map]
    rfl
  · intro h hfree
    exact pyReplaceWww_spec_agree h hfree

/-- Witness for C9 amended at a host whose `www.` occurs only as the
leading prefix. -/
theorem c9_amended_domain_replace_all_witness :
    pyReplaceWww (str "www.example.com") = specLeadingWwwStripped (str "www.example.com") :=
  (c9_amended_domain_replace_all []).2 (str "www.example.com") (by decide)

/-- C2 (evidence for the code bug): the model output of `c5input` has an
extractable title `My Title`, but `_update_post_with_content` reads the
title from `structure.get('title')`, a key `_analyze_structure` never
produces, so the persisted record keeps the placeholder title even
though the parse extracted one. -/
theorem c2_extracted_title_not_persisted :
    (parseResponse c5input).title = some (str "My Title") ∧
    dictGet (parseResponse c5input).struct (str "title") = none ∧
    postTitle c2run = some (str "Draft: Future of renewable energy...") ∧
    postStatus c2run = some PostStatus.completed := by
  decide

/-- C1 counterexample: with the content record created and the provider
call raising the fatal `AuthError` (a `ServiceError`), the record moves
to `failed` and the error is re-raised, but no error text is stored in
the record's metadata — refuting the claim that every post-creation
error stores its text in metadata. -/
theorem c1_counterexample_auth_error_metadata :
    postStatus c1run = some PostStatus.failed ∧
    postErrorMeta c1run = some none ∧
    c1run.raised = some authErrCe ∧
    authErrCe.code = str "AUTH_ERROR" := by
  decide

/-- C1 amended: after the record is created, a raised `ServiceError`
(the uniform taxonomy, including provider auth errors) moves the record
to `failed` and re-raises unchanged but stores no error text in
metadata; only a non-`ServiceError` exception additionally stores the
error text under the `error` metadata key before re-raising wrapped as
a generic `ServiceError`. -/
theorem c1_amended_failure_paths :
    ∀ (topic slug rawPrompt : Text) (e : ServiceErrorM) (msg : Text),
      validateGenerationInput topic slug = none →
      (postStatus (generatePost topic slug true rawPrompt (.failServiceError e)) =
          some PostStatus.failed ∧
        postErrorMeta (generatePost topic slug true rawPrompt (.failServiceError e)) =
          some none ∧
        (generatePost topic slug true rawPrompt (.failServiceError e)).raised = some e) ∧
      (postStatus (generatePost topic slug true rawPrompt (.failOther msg)) =
          some PostStatus.failed ∧
        postErrorMeta (generatePost topic slug true rawPrompt (.failOther msg)) =
          some (some msg) ∧
        (generatePost topic slug true rawPrompt (.failOther msg)).raised =
          some (handleException msg)) := by
  intro topic slug rawPrompt e msg hval
  refine ⟨⟨?_, ?_, ?_⟩, ?_, ?_, ?_⟩ <;>
    simp [generatePost, hval, postStatus, postErrorMeta, createPostRecord,
      dictSet, dictGetT]

/-- Witness for C1 amended at a concrete topic and both error kinds. -/
theorem c1_amended_failure_paths_witness :
    postErrorMeta c1run = some none ∧
    postErrorMeta (generatePost (str "Future of renewable energy") (str "technical") true
        (str "prompt") (CallOutcome.failOther (str "boom"))) = some (some (str "boom")) := by
  have h := c1_amended_failure_paths (str "Future of renewable energy") (str "technical")
    (str "prompt") authErrCe (str "boom") (by decide)
  exact ⟨h.1.2.1, h.2.2.1⟩

/-- C6 counterexample: the parser does raise on malformed input.  The
citation regex captures URLs with a mismatched square bracket, and
`urlparse` then raises `ValueError("Invalid IPv6 URL")`: on
`"## Sources\n- [T](http://[a)\n"` the sources section is found, the
capture is `(T, http://[a)`, its netloc `[a` fails the bracket
validation, and `_parse_response` raises — refuting the never-raises
policy. -/
theorem c6_counterexample_parser_raises :
    srcSearch c6badInput = some (str "- [T](http://[a)") ∧
    findCitationsAux ((str "- [T](http://[a)").length + 1) (str "- [T](http://[a)") =
      [(str "T", str "http://[a")] ∧
    urlNetloc (str "http://[a") = str "[a" ∧
    urlparseRaises (str "http://[a") = true ∧
    parseResponseRaises c6badInput = true := by
  decide

/-- C6 amended: on any input with no sources section the parser never
raises (its only raising call, `urlparse`, is then unreachable) and
degrades leniently — a missing title yields `none`, the body is
returned unchanged, and the empty string gives `word_count 0`,
`headings []`, no title, no sources; when a sources section is present
the parser can raise, namely when a captured citation URL fails the
netloc bracket validation. -/
theorem c6_amended_parser_leniency :
    (parseResponse []).title = none ∧
    (parseResponse []).sources = [] ∧
    (parseResponse []).markdown = [] ∧
    parseResponseRaises [] = false ∧
    dictGet (parseResponse []).struct (str "word_count") = some (StructVal.nat 0) ∧
    dictGet (parseResponse []).struct (str "headings") = some (StructVal.headings []) ∧
    (∀ s : Text, titleScanAux (s.length + 1) s true = none →
      (parseResponse s).title = none) ∧
    (∀ s : Text, srcSearch s = none →
      parseResponseRaises s = false ∧
      (parseResponse s).sources = [] ∧ (parseResponse s).markdown = s) := by
  refine ⟨by decide, by decide, by decide, by decide, by decide, by decide, ?_, ?_⟩
  · intro s h
    cases hs : srcSearch s <;> simp [parseResponse, h, hs]
  · intro s h
    simp [parseResponse, parseResponseRaises, h]

/-- Witness for C6 amended at a concrete input with no title and no
sources section. -/
theorem c6_amended_parser_leniency_witness :
    (parseResponse (str "no heading here")).title = none ∧
    parseResponseRaises (str "no heading here") = false := by
  refine ⟨?_, ?_⟩
  · exact c6_amended_parser_leniency.2.2.2.2.2.2.1 (str "no heading here") (by decide)
  · exact (c6_amended_parser_leniency.2.2.2.2.2.2.2 (str "no heading here") (by decide)).1

/-- C3: from the closed state, three (the default threshold) consecutive
`recordFailure` calls — and not fewer — open the provider's breaker:
`checkOpen` then fails exactly until the default 30-second cool-off has
elapsed from the third failure; one `recordSuccess` resets the count to
0 and clears `open_until`, closing the breaker immediately. -/
theorem c3_circuit_breaker :
    ∀ (m0 : ProviderStates) (p : Text) (t1 t2 t3 now : Int),
      m0 p = circuitInit →
      0 ≤ now →
      (checkCircuit (m0 p) now = none ∧
       checkCircuit ((applyFailures m0 p [t1]) p) now = none ∧
       checkCircuit ((applyFailures m0 p [t1, t2]) p) now = none) ∧
      ((applyFailures m0 p [t1, t2, t3]) p).failures = circuitFailureThreshold ∧
      (checkCircuit ((applyFailures m0 p [t1, t2, t3]) p) now = none ↔
        t3 + circuitCoolOffSeconds ≤ now) ∧
      (recordSuccessFor (applyFailures m0 p [t1, t2, t3]) p) p = circuitInit ∧
      checkCircuit ((recordSuccessFor (applyFailures m0 p [t1, t2, t3]) p) p) now = none := by
  intro m0 p t1 t2 t3 now h0 hnow
  have s1 : (applyFailures m0 p [t1]) p = { failures := 1, open_until := 0 } := by
    simp [applyFailures, recordFailureFor, recordFailure, h0, circuitInit,
      circuitFailureThreshold]
  have s2 : (applyFailures m0 p [t1, t2]) p = { failures := 2, open_until := 0 } := by
    simp [applyFailures, recordFailureFor, recordFailure, h0, circuitInit,
      circuitFailureThreshold]
  have s3 : (applyFailures m0 p [t1, t2, t3]) p =
      { failures := 3, open_until := t3 + circuitCoolOffSeconds } := by
    simp [applyFailures, recordFailureFor, recordFailure, h0, circuitInit,
      circuitFailureThreshold]
  refine ⟨⟨?_, ?_, ?_⟩, ?_, ?_, ?_, ?_⟩
  · simp [checkCircuit, h0, circuitInit]; try omega
  · simp [checkCircuit, s1]; try omega
  · simp [checkCircuit, s2]; try omega
  · simp [s3, circuitFailureThreshold]
  · simp [checkCircuit, s3]; try omega
  · simp [recordSuccessFor, recordSuccess, s3]
  · simp [recordSuccessFor, recordSuccess, checkCircuit, circuitInit]; try omega

/-- Witness for C3 with failures of the `gemini` provider at times 0, 1
and 2. -/
theorem c3_circuit_breaker_witness :
    ((applyFailures constInitStates (str "gemini") [0, 1, 2]) (str "gemini")).failures =
      circuitFailureThreshold ∧
    (recordSuccessFor (applyFailures constInitStates (str "gemini") [0, 1, 2])
      (str "gemini")) (str "gemini") = circuitInit := by
  have h := c3_circuit_breaker constInitStates (str "gemini") 0 1 2 10 rfl (by decide)
  exact ⟨h.2.1, h.2.2.2.1⟩

lemma isPrefixL_refl (p : Text) : isPrefixL p p = true := by
  induction p with
  | nil => rfl
  | cons a as ih => simp [isPrefixL, ih]

lemma isSuffixL_refl (q : Text) : isSuffixL q q = true := isPrefixL_refl _

lemma isSuffixL_cons (q a : Text) (c : Char) (h : isSuffixL q a = true) :
    isSuffixL q (c :: a) = true := by
  unfold isSuffixL at h ⊢
  rw [List.reverse_cons]
  exact isPrefixL_append_left _ _ _ h

lemma isPrefixL_append_cases (p : Text) : ∀ (a b : Text), isPrefixL p (a ++ b) = true →
    isPrefixL p a = true ∨ ∃ t, p = a ++ t ∧ isPrefixL t b = true := by
  intro a
  induction a generalizing p with
  | nil =>
    intro b h
    exact Or.inr ⟨p, by simp, by simpa using h⟩
  | cons c a' ih =>
    intro b h
    cases p with
    | nil => exact Or.inl rfl
    | cons x p' =>
      simp only [List.cons_append, isPrefixL, Bool.and_eq_true] at h
      obtain ⟨hx, hrest⟩ := h
      rcases ih p' b hrest with hl | ⟨t, hpt, htb⟩
      · exact Or.inl (by simp [isPrefixL, hx, hl])
      · exact Or.inr ⟨t, by rw [eq_of_beq hx, hpt, List.cons_append], htb⟩

lemma containsSub_append_split (p : Text) : ∀ (a b : Text),
    containsSub p (a ++ b) = true →
    containsSub p a = true ∨ containsSub p b = true ∨
    ∃ k, 1 ≤ k ∧ k < p.length ∧ isSuffixL (p.take k) a = true ∧
      isPrefixL (p.drop k) b = true := by
  intro a
  induction a with
  | nil =>
    intro b h
    exact Or.inr (Or.inl (by simpa using h))
  | cons c a' ih =>
    intro b h
    rw [List.cons_append] at h
    simp only [containsSub, Bool.or_eq_true] at h
    rcases h with hpre | hcont
    · rw [← List.cons_append] at hpre
      rcases isPrefixL_append_cases p (c :: a') b hpre with hl | ⟨t, hpt, htb⟩
      · exact Or.inl (containsSub_of_isPrefixL _ _ hl)
      · cases t with
        | nil =>
          rw [List.append_nil] at hpt
          exact Or.inl (containsSub_of_isPrefixL _ _ (by rw [hpt]; exact isPrefixL_refl _))
        | cons y t' =>
          refine Or.inr (Or.inr ⟨(c :: a').length, ?_, ?_, ?_, ?_⟩)
          · simp
          · rw [hpt]; simp [List.length_append]
          · rw [hpt, List.take_left]; exact isSuffixL_refl _
          · rw [hpt, List.drop_left]; exact htb
    · rcases ih b hcont with hl | hr | ⟨k, h1, h2, hsuf, hpre⟩
      · exact Or.inl (by simp [containsSub, hl])
      · exact Or.inr (Or.inl hr)
      · exact Or.inr (Or.inr ⟨k, h1, h2, isSuffixL_cons _ _ _ hsuf, hpre⟩)

lemma noStraddleB_spec {a p : Text} (h : noStraddleB a p = true) :
    ∀ k, 1 ≤ k → k < p.length → isSuffixL (p.take k) a = false := by
  intro k h1 h2
  have hk := (List.all_eq_true.mp h) k (List.mem_range.mpr h2)
  have hk0 : (k == 0) = false := by
    simp only [beq_eq_false_iff_ne, ne_eq]
    omega
  rw [hk0, Bool.false_or] at hk
  simpa using hk

lemma no_contains_append_concrete (p a b : Text)
    (ha : containsSub p a = false) (hstr : noStraddleB a p = true)
    (hb : containsSub p b = false) : containsSub p (a ++ b) = false := by
  cases hc : containsSub p (a ++ b) with
  | false => rfl
  | true =>
    exfalso
    rcases containsSub_append_split p a b hc with h | h | ⟨k, h1, h2, hsuf, _⟩
    · simp [ha] at h
    · simp [hb] at h
    · rw [noStraddleB_spec hstr k h1 h2] at hsuf
      exact Bool.noConfusion hsuf

lemma no_contains_append_nlright (p a b : Text)
    (ha : containsSub p a = false) (hb : containsSub p b = false)
    (hnl : p.all (fun c => !(c == '\n')) = true)
    (hbh : ∃ b', b = '\n' :: b') : containsSub p (a ++ b) = false := by
  cases hc : containsSub p (a ++ b) with
  | false => rfl
  | true =>
    exfalso
    rcases containsSub_append_split p a b hc with h | h | ⟨k, h1, h2, _, hpre⟩
    · simp [ha] at h
    · simp [hb] at h
    · obtain ⟨b', rfl⟩ := hbh
      cases hdk : p.drop k with
      | nil =>
        have := congrArg List.length hdk
        simp [List.length_drop] at this
        omega
      | cons x q =>
        rw [hdk] at hpre
        simp only [isPrefixL, Bool.and_eq_true, beq_iff_eq] at hpre
        have hx : x ∈ p := by
          have hmem : x ∈ p.drop k := by rw [hdk]; exact List.mem_cons_self _ _
          exact List.drop_subset k p hmem
        have hno := (List.all_eq_true.mp hnl) x hx
        rw [hpre.1] at hno
        simp at hno

/-- C8: for any speed other than `fast` the rendered user prompt always
contains the sources-section directive and requests the default long
word range 800-1200; for `fast` it always requests the short range
180-260 and — for every topic, context and style guidance none of which
itself contains the directive text (the template never emits it) — the
prompt does not contain the sources-section directive; at a
representative instantiation it does not contain the long range either. -/
theorem c8_prompt_speed :
    (∀ (speed topic : Text) (ctx : List (Text × Text)) (g : Text),
       ¬ speed = str "fast" →
       containsSub sourcesDirective (renderUserPrompt topic ctx g speed) = true ∧
       containsSub (str "- Length: 800-1200 words") (renderUserPrompt topic ctx g speed) = true) ∧
    (∀ (topic : Text) (ctx : List (Text × Text)) (g : Text),
       containsSub sourcesDirective topic = false →
       containsSub sourcesDirective (contextBlock ctx) = false →
       containsSub sourcesDirective g = false →
       containsSub sourcesDirective (renderUserPrompt topic ctx g (str "fast")) = false ∧
       containsSub (str "- Length: 180-260 words")
         (renderUserPrompt topic ctx g (str "fast")) = true) ∧
    containsSub (str "- Length: 800-1200 words")
      (renderUserPrompt promptTopic [] techGuidance (str "fast")) = false := by
  refine ⟨?_, ?_, by decide⟩
  · intro speed topic ctx g h
    have hb : (speed == str "fast") = false := by
      simpa using h
    constructor
    · simp only [renderUserPrompt, hb, Bool.false_eq_true, if_false, List.append_nil,
        List.nil_append]
      apply containsSub_append_right
      apply containsSub_append_left
      apply containsSub_append_right
      exact containsSub_of_isPrefixL _ _ (isPrefixL_refl _)
    · simp only [renderUserPrompt, hb, Bool.false_eq_true, if_false, List.append_nil,
        List.nil_append]
      rw [show lengthLine 800 1200 = str "- Length: 800-1200 words\n" from by decide]
      apply containsSub_append_left
      apply containsSub_append_left
      apply containsSub_append_left
      apply containsSub_append_left
      apply containsSub_append_right
      decide
  · intro topic ctx g htop hctx hg
    have hb : ((str "fast" : Text) == str "fast") = true := by decide
    constructor
    · simp only [renderUserPrompt, hb, eq_self_iff_true, if_true, List.append_nil,
        List.append_assoc]
      refine no_contains_append_concrete _ _ _ (by decide) (by decide) ?_
      refine no_contains_append_nlright _ _ _ htop ?_ (by decide) ⟨_, rfl⟩
      refine no_contains_append_concrete _ _ _ (by decide) (by decide) ?_
      refine no_contains_append_nlright _ _ _ hctx ?_ (by decide) ⟨_, rfl⟩
      refine no_contains_append_concrete _ _ _ (by decide) (by decide) ?_
      refine no_contains_append_concrete _ _ _ (by decide) (by decide) ?_
      refine no_contains_append_concrete _ _ _ (by decide) (by decide) ?_
      refine no_contains_append_nlright _ _ _ hg ?_ (by decide) ⟨_, rfl⟩
      decide
    · simp only [renderUserPrompt, hb, eq_self_iff_true, if_true, List.append_nil,
        List.nil_append]
      rw [show lengthLine 180 260 = str "- Length: 180-260 words\n" from by decide]
      apply containsSub_append_left
      apply containsSub_append_left
      apply containsSub_append_left
      apply containsSub_append_left
      apply containsSub_append_right
      decide

/-- Witness for C8 at the concrete non-fast speed `normal` and the fast
speed with concrete topic, empty context, and the technical guidance. -/
theorem c8_prompt_speed_witness :
    containsSub sourcesDirective
      (renderUserPrompt promptTopic [] techGuidance (str "normal")) = true ∧
    containsSub sourcesDirective
      (renderUserPrompt promptTopic [] techGuidance (str "fast")) = false ∧
    containsSub (str "- Length: 180-260 words")
      (renderUserPrompt promptTopic [] techGuidance (str "fast")) = true := by
  have h1 := c8_prompt_speed.1 (str "normal") promptTopic [] techGuidance (by decide)
  have h2 := c8_prompt_speed.2.1 promptTopic [] techGuidance (by decide) (by decide)
    (by decide)
  exact ⟨h1.1, h2.1, h2.2⟩

lemma findEngagement_append_one {rows : List EngRow} {p : Nat} {s : Text} {row : EngRow}
    (h : findEngagement rows p s = none)
    (hrow : (row.blog_post == p && row.session_id == s) = true) :
    findEngagement (rows ++ [row]) p s = some row := by
  induction rows with
  | nil => simp only [List.nil_append, findEngagement, List.find?, hrow]
  | cons r rest ih =>
    by_cases hr : (r.blog_post == p && r.session_id == s) = true
    · exfalso
      simp only [findEngagement, List.find?, hr] at h
      exact Option.noConfusion h
    · have hr' : (r.blog_post == p && r.session_id == s) = false := by simpa using hr
      have h' : findEngagement rest p s = none := by
        simpa only [findEngagement, List.find?, hr'] using h
      simpa only [List.cons_append, findEngagement, List.find?, hr'] using ih h'

lemma deleteEngagement_append_one {rows : List EngRow} {p : Nat} {s : Text} {row : EngRow}
    (h : findEngagement rows p s = none)
    (hrow : (row.blog_post == p && row.session_id == s) = true) :
    deleteEngagement (rows ++ [row]) p s = rows := by
  induction rows with
  | nil => simp only [List.nil_append, deleteEngagement, hrow, if_true]
  | cons r rest ih =>
    by_cases hr : (r.blog_post == p && r.session_id == s) = true
    · exfalso
      simp only [findEngagement, List.find?, hr] at h
      exact Option.noConfusion h
    · have hr' : (r.blog_post == p && r.session_id == s) = false := by simpa using hr
      have h' : findEngagement rest p s = none := by
        simpa only [findEngagement, List.find?, hr'] using h
      simp only [List.cons_append, deleteEngagement, hr', Bool.false_eq_true, if_false]
      exact congrArg (fun l => r :: l) (ih h')

lemma mapUpdate_id {p : Nat} {s : Text} (a : Text) (md : List (Text × Text))
    {rows : List EngRow} (h : findEngagement rows p s = none) :
    rows.map (fun r =>
      if r.blog_post == p && r.session_id == s then
        { r with action := a, metadata := md }
      else r) = rows := by
  induction rows with
  | nil => rfl
  | cons r rest ih =>
    by_cases hr : (r.blog_post == p && r.session_id == s) = true
    · exfalso
      simp only [findEngagement, List.find?, hr] at h
      exact Option.noConfusion h
    · have hr' : (r.blog_post == p && r.session_id == s) = false := by simpa using hr
      have h' : findEngagement rest p s = none := by
        simpa only [findEngagement, List.find?, hr'] using h
      simp only [List.map_cons, hr', Bool.false_eq_true, if_false]
      exact congrArg (fun l => r :: l) (ih h')

lemma filterPair_eq_nil {rows : List EngRow} {p : Nat} {s : Text}
    (h : findEngagement rows p s = none) :
    rows.filter (fun r => r.blog_post == p && r.session_id == s) = [] := by
  induction rows with
  | nil => rfl
  | cons r rest ih =>
    by_cases hr : (r.blog_post == p && r.session_id == s) = true
    · exfalso
      simp only [findEngagement, List.find?, hr] at h
      exact Option.noConfusion h
    · have hr' : (r.blog_post == p && r.session_id == s) = false := by simpa using hr
      have h' : findEngagement rest p s = none := by
        simpa only [findEngagement, List.find?, hr'] using h
      simp only [List.filter_cons, hr', Bool.false_eq_true, if_false]
      exact ih h'

/-- C7: starting from any state in which post `p` exists and the
(post, session) pair has no row, `like` then `like` deletes the row
(the table and the post's sentiment score return to their prior values),
while `like` then `dislike` leaves exactly one row for the pair, with
action `dislike`, and a score one below the neutral (pre-engagement)
value; at every stage the pair has at most one row. -/
theorem c7_engagement_toggle :
    ∀ (st : EngState) (p : Nat) (s : Text),
      st.posts.contains p = true →
      findEngagement st.rows p s = none →
      (pairRows (engAfter st p s (str "like")).rows p s = [likeRow p s] ∧
       (engAfter (engAfter st p s (str "like")) p s (str "like")).rows = st.rows ∧
       sentimentOf (engAfter (engAfter st p s (str "like")) p s (str "like")).rows p =
          sentimentOf st.rows p) ∧
      (pairRows (engAfter (engAfter st p s (str "like")) p s (str "dislike")).rows p s =
          [dislikeRow p s] ∧
       (engAfter (engAfter st p s (str "like")) p s (str "dislike")).rows =
          st.rows ++ [dislikeRow p s] ∧
       sentimentOf (engAfter (engAfter st p s (str "like")) p s (str "dislike")).rows p =
          sentimentOf st.rows p - 1) := by
  intro st p s hpost hnone
  have hkeyL : ((likeRow p s).blog_post == p && (likeRow p s).session_id == s) = true := by
    simp [likeRow]
  have heqLL : (str "like" == str "like") = true := by decide
  have heqDL : (str "dislike" == str "like") = false := by decide
  have heqDD : (str "dislike" == str "dislike") = true := by decide
  have hactLL : ((likeRow p s).action == str "like") = true := rfl
  have hactLD : ((likeRow p s).action == str "dislike") = false := rfl
  have e1 : engAfter st p s (str "like") =
      { posts := st.posts, rows := st.rows ++ [likeRow p s] } := by
    simp only [engAfter, recordAction, hpost, Bool.not_true, Bool.false_eq_true, if_false,
      heqLL, Bool.true_or, hnone, upsertEngagement, Option.isSome_none, likeRow]
  have f1 : findEngagement (st.rows ++ [likeRow p s]) p s = some (likeRow p s) :=
    findEngagement_append_one hnone hkeyL
  have e2 : (engAfter { posts := st.posts, rows := st.rows ++ [likeRow p s] }
      p s (str "like")).rows = st.rows := by
    simp only [engAfter, recordAction, hpost, Bool.not_true, Bool.false_eq_true, if_false,
      heqLL, Bool.true_or, f1, hactLL, if_true]
    exact deleteEngagement_append_one hnone hkeyL
  have e3 : (engAfter { posts := st.posts, rows := st.rows ++ [likeRow p s] }
      p s (str "dislike")).rows = st.rows ++ [dislikeRow p s] := by
    simp only [engAfter, recordAction, hpost, Bool.not_true, Bool.false_eq_true, if_false,
      heqDL, heqDD, Bool.false_or, Bool.or_true, f1, hactLD, upsertEngagement,
      Option.isSome_some, if_true, List.map_append, mapUpdate_id (str "dislike") [] hnone,
      List.map_cons, List.map_nil, hkeyL]
    rfl
  refine ⟨⟨?_, ?_, ?_⟩, ?_, ?_, ?_⟩
  · rw [e1]
    simp only [pairRows, List.filter_append, filterPair_eq_nil hnone, List.nil_append]
    simp [likeRow]
  · rw [e1, e2]
  · rw [e1, e2]
  · rw [e1, e3]
    simp only [pairRows, List.filter_append, filterPair_eq_nil hnone, List.nil_append]
    simp [dislikeRow]
  · rw [e1, e3]
  · rw [e1, e3]
    simp only [sentimentOf, likesCount, dislikesCount, List.filter_append,
      List.length_append]
    have hfl : (List.filter (fun r => r.blog_post == p && r.action == str "like")
        [dislikeRow p s]).length = 0 := by
      simp [dislikeRow, show (str "dislike" == str "like") = false from by decide]
    have hfd : (List.filter (fun r => r.blog_post == p && r.action == str "dislike")
        [dislikeRow p s]).length = 1 := by
      simp [dislikeRow, show (str "dislike" == str "dislike") = true from by decide]
    rw [hfl, hfd]
    omega

/-- Witness for C7 on the concrete one-post database. -/
theorem c7_engagement_toggle_witness :
    (engAfter (engAfter engSt0 1 (str "sess") (str "like")) 1 (str "sess") (str "like")).rows =
      engSt0.rows ∧
    sentimentOf (engAfter (engAfter engSt0 1 (str "sess") (str "like")) 1 (str "sess")
      (str "dislike")).rows 1 = sentimentOf engSt0.rows 1 - 1 := by
  have h := c7_engagement_toggle engSt0 1 (str "sess") (by decide) (by decide)
  exact ⟨h.1.2.1, h.2.2.2⟩

lemma claudeGo_retriable_step (f : Nat → ClaudeOutcome) (r attempt : Nat)
    (lastErr : Option Text) (sleeps : List Nat) (st : Option Nat) (m : Text)
    (hfi : f attempt = .anthropicErr st m) (hst : claudeStatusFatal st = false) :
    claudeGo f (r + 1) attempt lastErr sleeps =
      claudeGo f r (attempt + 1) (some m)
        (if r == 0 then sleeps else sleeps ++ [2 ^ attempt]) := by
  conv_lhs => rw [claudeGo]
  rw [hfi]
  simp [hst]

lemma geminiGo_http_step (f : Nat → GeminiOutcome) (r attempt : Nat)
    (lastErr : Option Text) (sleeps : List Nat) (code : Nat) (body em er : Text)
    (hfi : f attempt = .httpErr code body em er)
    (hst : geminiHttpFatal code body = false) :
    geminiGo f (r + 1) attempt lastErr sleeps =
      geminiGo f r (attempt + 1) (some (geminiHttpLastError code body))
        (if r == 0 then sleeps else sleeps ++ [2 ^ attempt]) := by
  conv_lhs => rw [geminiGo]
  rw [hfi]
  simp [hst]

lemma geminiGo_other_step (f : Nat → GeminiOutcome) (r attempt : Nat)
    (lastErr : Option Text) (sleeps : List Nat) (m : Text)
    (hfi : f attempt = .otherErr m) :
    geminiGo f (r + 1) attempt lastErr sleeps =
      geminiGo f r (attempt + 1) (some m)
        (if r == 0 then sleeps else sleeps ++ [2 ^ attempt]) := by
  conv_lhs => rw [geminiGo]
  rw [hfi]

lemma claudeGo_all_retriable (f : Nat → ClaudeOutcome)
    (h : ∀ i, claudeRetriable (f i) = true) :
    ∀ (r attempt : Nat) (lastErr : Option Text) (sleeps : List Nat),
      (claudeGo f (r + 1) attempt lastErr sleeps).attempts = attempt + (r + 1) ∧
      (claudeGo f (r + 1) attempt lastErr sleeps).result =
        .error (claudeApiError (some (claudeOutcomeMsg (f (attempt + r))))) := by
  intro r
  induction r with
  | zero =>
    intro attempt lastErr sleeps
    have hi := h attempt
    cases hfi : f attempt with
    | ok c i o => rw [hfi] at hi; simp [claudeRetriable] at hi
    | otherErr m => rw [hfi] at hi; simp [claudeRetriable] at hi
    | anthropicErr st m =>
      have hst : claudeStatusFatal st = false := by
        simpa [claudeRetriable, hfi] using hi
      simp [claudeGo, hfi, hst, claudeOutcomeMsg]
  | succ r ih =>
    intro attempt lastErr sleeps
    have hi := h attempt
    cases hfi : f attempt with
    | ok c i o => rw [hfi] at hi; simp [claudeRetriable] at hi
    | otherErr m => rw [hfi] at hi; simp [claudeRetriable] at hi
    | anthropicErr st m =>
      have hst : claudeStatusFatal st = false := by
        simpa [claudeRetriable, hfi] using hi
      rw [claudeGo_retriable_step f (r + 1) attempt lastErr sleeps st m hfi hst]
      simp only [show ((r + 1 : Nat) == 0) = false from by simp, Bool.false_eq_true,
        if_false]
      have hrec := ih (attempt + 1) (some m) (sleeps ++ [2 ^ attempt])
      constructor
      · rw [hrec.1]; omega
      · rw [hrec.2]
        have : attempt + 1 + r = attempt + (r + 1) := by omega
        rw [this]

lemma geminiGo_all_retriable (f : Nat → GeminiOutcome)
    (h : ∀ i, geminiRetriable (f i) = true) :
    ∀ (r attempt : Nat) (lastErr : Option Text) (sleeps : List Nat),
      (geminiGo f (r + 1) attempt lastErr sleeps).attempts = attempt + (r + 1) ∧
      (geminiGo f (r + 1) attempt lastErr sleeps).result =
        .error (geminiApiError (some (geminiOutcomeLastError (f (attempt + r))))) := by
  intro r
  induction r with
  | zero =>
    intro attempt lastErr sleeps
    have hi := h attempt
    cases hfi : f attempt with
    | ok c a b d => rw [hfi] at hi; simp [geminiRetriable] at hi
    | otherErr m => simp [geminiGo, hfi, geminiOutcomeLastError]
    | httpErr code body em er =>
      have hst : geminiHttpFatal code body = false := by
        simpa [geminiRetriable, hfi] using hi
      simp [geminiGo, hfi, hst, geminiOutcomeLastError]
  | succ r ih =>
    intro attempt lastErr sleeps
    have hi := h attempt
    cases hfi : f attempt with
    | ok c a b d => rw [hfi] at hi; simp [geminiRetriable] at hi
    | otherErr m =>
      rw [geminiGo_other_step f (r + 1) attempt lastErr sleeps m hfi]
      simp only [show ((r + 1 : Nat) == 0) = false from by simp, Bool.false_eq_true,
        if_false]
      have hrec := ih (attempt + 1) (some m) (sleeps ++ [2 ^ attempt])
      constructor
      · rw [hrec.1]; omega
      · rw [hrec.2]
        have : attempt + 1 + r = attempt + (r + 1) := by omega
        rw [this]
    | httpErr code body em er =>
      have hst : geminiHttpFatal code body = false := by
        simpa [geminiRetriable, hfi] using hi
      rw [geminiGo_http_step f (r + 1) attempt lastErr sleeps code body em er hfi hst]
      simp only [show ((r + 1 : Nat) == 0) = false from by simp, Bool.false_eq_true,
        if_false]
      have hrec := ih (attempt + 1) (some (geminiHttpLastError code body))
        (sleeps ++ [2 ^ attempt])
      constructor
      · rw [hrec.1]; omega
      · rw [hrec.2]
        have : attempt + 1 + r = attempt + (r + 1) := by omega
        rw [this]

lemma claudeGo_fatal_first (f : Nat → ClaudeOutcome) (r : Nat) (st : Option Nat) (msg : Text)
    (hf : f 0 = .anthropicErr st msg) (hst : claudeStatusFatal st = true) :
    claudeGo f (r + 1) 0 none [] =
      { result := .error (claudeFatalError (st.getD 0) msg), attempts := 1,
        sleeps := [], recordedFailure := false } := by
  simp [claudeGo, hf, hst]

lemma geminiGo_fatal_first (f : Nat → GeminiOutcome) (r : Nat) (code : Nat)
    (body em er : Text)
    (hf : f 0 = .httpErr code body em er) (hst : geminiHttpFatal code body = true) :
    geminiGo f (r + 1) 0 none [] =
      { result := .error (geminiFatalError code body em er), attempts := 1,
        sleeps := [], recordedFailure := false } := by
  simp [geminiGo, hf, hst]

/-- C4: with `max_retries = 2` and an oracle that raises a retriable
error on every attempt, both retry loops make exactly 3 attempts and the
final `API_ERROR` carries the last underlying error text in its
`last_error` detail; with a non-retriable (fail-fast) first outcome,
exactly 1 attempt is made, no sleep happens, and the mapped fatal error
propagates immediately. -/
theorem c4_retry_attempts :
    ∀ (fc : Nat → ClaudeOutcome) (fg : Nat → GeminiOutcome)
      (fc2 : Nat → ClaudeOutcome) (fg2 : Nat → GeminiOutcome),
      (∀ i, claudeRetriable (fc i) = true) →
      (∀ i, geminiRetriable (fg i) = true) →
      claudeFatal (fc2 0) = true →
      geminiFatal (fg2 0) = true →
      ((callClaudeWithRetry fc 2).attempts = 3 ∧
       (callClaudeWithRetry fc 2).result =
         .error (claudeApiError (some (claudeOutcomeMsg (fc 2)))) ∧
       (callGeminiWithRetry fg 2).attempts = 3 ∧
       (callGeminiWithRetry fg 2).result =
         .error (geminiApiError (some (geminiOutcomeLastError (fg 2))))) ∧
      ((callClaudeWithRetry fc2 2).attempts = 1 ∧
       (callClaudeWithRetry fc2 2).sleeps = [] ∧
       (callClaudeWithRetry fc2 2).result = .error (claudeFatalErrorOf (fc2 0)) ∧
       (callGeminiWithRetry fg2 2).attempts = 1 ∧
       (callGeminiWithRetry fg2 2).sleeps = [] ∧
       (callGeminiWithRetry fg2 2).result = .error (geminiFatalErrorOf (fg2 0))) := by
  intro fc fg fc2 fg2 hc hg hcf hgf
  have hcl := claudeGo_all_retriable fc hc 2 0 none []
  have hge := geminiGo_all_retriable fg hg 2 0 none []
  refine ⟨⟨?_, ?_, ?_, ?_⟩, ?_⟩
  · simpa [callClaudeWithRetry] using hcl.1
  · simpa [callClaudeWithRetry] using hcl.2
  · simpa [callGeminiWithRetry] using hge.1
  · simpa [callGeminiWithRetry] using hge.2
  · cases hf0 : fc2 0 with
    | ok c i o => rw [hf0] at hcf; simp [claudeFatal] at hcf
    | otherErr m => rw [hf0] at hcf; simp [claudeFatal] at hcf
    | anthropicErr st m =>
      have hst : claudeStatusFatal st = true := by
        simpa [claudeFatal, hf0] using hcf
      have h1 := claudeGo_fatal_first fc2 2 st m hf0 hst
      cases hg0 : fg2 0 with
      | ok c a b d => rw [hg0] at hgf; simp [geminiFatal] at hgf
      | otherErr m2 => rw [hg0] at hgf; simp [geminiFatal] at hgf
      | httpErr code body em er =>
        have hst2 : geminiHttpFatal code body = true := by
          simpa [geminiFatal, hg0] using hgf
        have h2 := geminiGo_fatal_first fg2 2 code body em er hg0 hst2
        refine ⟨?_, ?_, ?_, ?_, ?_, ?_⟩ <;>
          simp [callClaudeWithRetry, callGeminiWithRetry, h1, h2, claudeFatalErrorOf,
            geminiFatalErrorOf, hf0, hg0]

lemma claudeGo_ok_step (f : Nat → ClaudeOutcome) (r attempt : Nat)
    (lastErr : Option Text) (sleeps : List Nat) (c : Text) (i o : Nat)
    (hfi : f attempt = .ok c i o) :
    claudeGo f (r + 1) attempt lastErr sleeps =
      { result := .ok { content := c, input_tokens := i, output_tokens := o,
                        total_tokens := i + o, retry_count := attempt },
        attempts := attempt + 1, sleeps := sleeps, recordedFailure := false } := by
  conv_lhs => rw [claudeGo]
  rw [hfi]

lemma claudeGo_fatal_step (f : Nat → ClaudeOutcome) (r attempt : Nat)
    (lastErr : Option Text) (sleeps : List Nat) (st : Option Nat) (msg : Text)
    (hf : f attempt = .anthropicErr st msg) (hst : claudeStatusFatal st = true) :
    claudeGo f (r + 1) attempt lastErr sleeps =
      { result := .error (claudeFatalError (st.getD 0) msg), attempts := attempt + 1,
        sleeps := sleeps, recordedFailure := false } := by
  conv_lhs => rw [claudeGo]
  rw [hf]
  simp [hst]

lemma claudeGo_break_step (f : Nat → ClaudeOutcome) (r attempt : Nat)
    (lastErr : Option Text) (sleeps : List Nat) (msg : Text)
    (hf : f attempt = .otherErr msg) :
    claudeGo f (r + 1) attempt lastErr sleeps =
      { result := .error (claudeApiError (some msg)), attempts := attempt + 1,
        sleeps := sleeps, recordedFailure := true } := by
  conv_lhs => rw [claudeGo]
  rw [hf]

lemma geminiGo_ok_step (f : Nat → GeminiOutcome) (r attempt : Nat)
    (lastErr : Option Text) (sleeps : List Nat) (c : Text) (pt ct tt : Nat)
    (hfi : f attempt = .ok c pt ct tt) :
    geminiGo f (r + 1) attempt lastErr sleeps =
      { result := .ok { content := c, input_tokens := pt, output_tokens := ct,
                        total_tokens := tt, retry_count := attempt },
        attempts := attempt + 1, sleeps := sleeps, recordedFailure := false } := by
  conv_lhs => rw [geminiGo]
  rw [hfi]

lemma geminiGo_fatal_step (f : Nat → GeminiOutcome) (r attempt : Nat)
    (lastErr : Option Text) (sleeps : List Nat) (code : Nat) (body em er : Text)
    (hf : f attempt = .httpErr code body em er)
    (hst : geminiHttpFatal code body = true) :
    geminiGo f (r + 1) attempt lastErr sleeps =
      { result := .error (geminiFatalError code body em er), attempts := attempt + 1,
        sleeps := sleeps, recordedFailure := false } := by
  conv_lhs => rw [geminiGo]
  rw [hf]
  simp [hst]

lemma claudeFatalError_code_ne (status : Nat) (msg : Text) :
    ¬ (claudeFatalError status msg).code = str "API_ERROR" := by
  unfold claudeFatalError
  split_ifs
  · exact (by decide : ¬ str "BILLING_ERROR" = str "API_ERROR")
  · exact (by decide : ¬ str "API_REQUEST_ERROR" = str "API_ERROR")

lemma geminiFatalError_code_ne (code : Nat) (body em er : Text) :
    ¬ (geminiFatalError code body em er).code = str "API_ERROR" := by
  unfold geminiFatalError
  split_ifs <;>
    first
    | exact (by decide : ¬ str "BILLING_ERROR" = str "API_ERROR")
    | exact (by decide : ¬ str "AUTH_ERROR" = str "API_ERROR")
    | exact (by decide : ¬ str "API_REQUEST_ERROR" = str "API_ERROR")

lemma claudeGo_recorded_iff (f : Nat → ClaudeOutcome) :
    ∀ (r attempt : Nat) (lastErr : Option Text) (sleeps : List Nat),
      ((claudeGo f r attempt lastErr sleeps).recordedFailure = true ↔
        errCode (claudeGo f r attempt lastErr sleeps) = some (str "API_ERROR")) := by
  intro r
  induction r with
  | zero =>
    intro attempt lastErr sleeps
    simp [claudeGo, errCode, claudeApiError]
  | succ r ih =>
    intro attempt lastErr sleeps
    cases hfi : f attempt with
    | ok c i o =>
      rw [claudeGo_ok_step f r attempt lastErr sleeps c i o hfi]
      simp [errCode]
    | otherErr m =>
      rw [claudeGo_break_step f r attempt lastErr sleeps m hfi]
      simp [errCode, claudeApiError]
    | anthropicErr st m =>
      by_cases hst : claudeStatusFatal st = true
      · rw [claudeGo_fatal_step f r attempt lastErr sleeps st m hfi hst]
        simpa [errCode] using claudeFatalError_code_ne (st.getD 0) m
      · have hst' : claudeStatusFatal st = false := by simpa using hst
        rw [claudeGo_retriable_step f r attempt lastErr sleeps st m hfi hst']
        exact ih (attempt + 1) (some m) _

lemma geminiGo_recorded_iff (f : Nat → GeminiOutcome) :
    ∀ (r attempt : Nat) (lastErr : Option Text) (sleeps : List Nat),
      ((geminiGo f r attempt lastErr sleeps).recordedFailure = true ↔
        errCode (geminiGo f r attempt lastErr sleeps) = some (str "API_ERROR")) := by
  intro r
  induction r with
  | zero =>
    intro attempt lastErr sleeps
    simp [geminiGo, errCode, geminiApiError]
  | succ r ih =>
    intro attempt lastErr sleeps
    cases hfi : f attempt with
    | ok c pt ct tt =>
      rw [geminiGo_ok_step f r attempt lastErr sleeps c pt ct tt hfi]
      simp [errCode]
    | otherErr m =>
      rw [geminiGo_other_step f r attempt lastErr sleeps m hfi]
      exact ih (attempt + 1) (some m) _
    | httpErr code body em er =>
      by_cases hst : geminiHttpFatal code body = true
      · rw [geminiGo_fatal_step f r attempt lastErr sleeps code body em er hfi hst]
        simpa [errCode] using geminiFatalError_code_ne code body em er
      · have hst' : geminiHttpFatal code body = false := by simpa using hst
        rw [geminiGo_http_step f r attempt lastErr sleeps code body em er hfi hst']
        exact ih (attempt + 1) (some (geminiHttpLastError code body)) _

/-- C10: a run that raises a fatal (billing / auth / malformed-request)
error never invoked `_record_failure`, so the per-provider circuit state
is untouched on that path; `_record_failure` runs exactly when the
retries-exhausted `API_ERROR` is raised. -/
theorem c10_fatal_skips_breaker :
    ∀ (fc : Nat → ClaudeOutcome) (fg : Nat → GeminiOutcome) (mc mg : Nat),
      ((errCode (callClaudeWithRetry fc mc) = some (str "BILLING_ERROR") ∨
        errCode (callClaudeWithRetry fc mc) = some (str "API_REQUEST_ERROR")) →
        (callClaudeWithRetry fc mc).recordedFailure = false) ∧
      ((callClaudeWithRetry fc mc).recordedFailure = true ↔
        errCode (callClaudeWithRetry fc mc) = some (str "API_ERROR")) ∧
      ((errCode (callGeminiWithRetry fg mg) = some (str "BILLING_ERROR") ∨
        errCode (callGeminiWithRetry fg mg) = some (str "AUTH_ERROR") ∨
        errCode (callGeminiWithRetry fg mg) = some (str "API_REQUEST_ERROR")) →
        (callGeminiWithRetry fg mg).recordedFailure = false) ∧
      ((callGeminiWithRetry fg mg).recordedFailure = true ↔
        errCode (callGeminiWithRetry fg mg) = some (str "API_ERROR")) := by
  intro fc fg mc mg
  have hciff : (callClaudeWithRetry fc mc).recordedFailure = true ↔
      errCode (callClaudeWithRetry fc mc) = some (str "API_ERROR") :=
    claudeGo_recorded_iff fc (mc + 1) 0 none []
  have hgiff : (callGeminiWithRetry fg mg).recordedFailure = true ↔
      errCode (callGeminiWithRetry fg mg) = some (str "API_ERROR") :=
    geminiGo_recorded_iff fg (mg + 1) 0 none []
  refine ⟨?_, hciff, ?_, hgiff⟩
  · intro h
    cases hrf : (callClaudeWithRetry fc mc).recordedFailure with
    | false => rfl
    | true =>
      have hc := hciff.mp hrf
      rw [hc] at h
      rcases h with h | h <;> exact absurd h (by decide)
  · intro h
    cases hrf : (callGeminiWithRetry fg mg).recordedFailure with
    | false => rfl
    | true =>
      have hg := hgiff.mp hrf
      rw [hg] at h
      rcases h with h | h | h <;> exact absurd h (by decide)

/-- Witness for C4 at concrete retriable and fail-fast oracles. -/
theorem c4_retry_attempts_witness :
    (callClaudeWithRetry cfRetri 2).attempts = 3 ∧
    (callGeminiWithRetry gfRetri 2).attempts = 3 ∧
    (callClaudeWithRetry cfFatal 2).attempts = 1 ∧
    (callClaudeWithRetry cfFatal 2).sleeps = [] := by
  have h := c4_retry_attempts cfRetri gfRetri cfFatal gfFatal
    (fun i => rfl) (fun i => rfl) (by decide) (by decide)
  exact ⟨h.1.1, h.1.2.2.1, h.2.1, h.2.2.1⟩

/-- Witness for C10 at concrete fail-fast oracles. -/
theorem c10_fatal_skips_breaker_witness :
    (callClaudeWithRetry cfFatal 2).recordedFailure = false ∧
    (callGeminiWithRetry gfFatal 2).recordedFailure = false := by
  have h := c10_fatal_skips_breaker cfFatal gfFatal 2 2
  exact ⟨h.1 (Or.inr (by decide)), h.2.2.1 (Or.inr (Or.inr (by decide)))⟩
